import Mathlib

/-!
Shallow embedding of the Flask prediction API in `app.py`.

Payloads are finite association lists from JSON keys to rational numbers
(the numeric values the endpoints consume).  The external TensorFlow Lite
runtime and the pre-fitted scalers are parameters of the embedding: a model
is a function from a (scaled) feature vector to an inference outcome, and a
scaler is a function on feature vectors; either may be absent (`none`),
mirroring the global variables that stay `None` when loading fails.
-/

namespace ProjectAPI

/-- A parsed JSON request body: an association list of field names to numbers.
`lookup` on the list plays the role of Python dict lookup (`data['k']`,
`data.get('k', d)`, `'k' in data`). -/
abbrev Payload := List (String × ℚ)

/-- Crop labels, `CROP_LABELS` in `app.py` (22 entries). -/
def CROP_LABELS : List String :=
  ["apple", "banana", "blackgram", "chickpea", "coconut", "coffee",
   "cotton", "grapes", "jute", "kidneybeans", "lentil", "maize",
   "mango", "mothbeans", "mungbean", "muskmelon", "orange", "papaya",
   "pigeonpeas", "pomegranate", "rice", "watermelon"]

/-- Soil fertility classes, `SOIL_CLASSES` in `app.py`. -/
def SOIL_CLASSES : List String := ["Low", "Mild", "High"]

/-- Outcome of invoking the TFLite interpreter on a scaled input: the output
confidence distribution, or a runtime failure with a message. -/
inductive InferOutcome where
  | ok (dist : List ℚ)
  | fail (msg : String)
deriving DecidableEq

/-- The process-global model/scaler handles (`crop_model`, `soil_model`,
`crop_scaler`, `soil_scaler` in `app.py`); `none` models a handle left
unloaded by `load_models`. -/
structure InferEnv where
  crop_model : Option (List ℚ → InferOutcome)
  soil_model : Option (List ℚ → InferOutcome)
  crop_scaler : Option (List ℚ → List ℚ)
  soil_scaler : Option (List ℚ → List ℚ)

/-- The dictionary returned by `predict_crop` / `predict_soil`: either the
three result keys, or a single `error` key holding the failure message. -/
inductive PredictResult where
  | ok (label : String) (confidence : ℚ) (class_index : ℕ)
  | err (msg : String)
deriving DecidableEq

/-- `np.argmax` helper: fold over the remaining list keeping the best
(index, value) pair seen so far; a strictly greater value replaces the best,
so ties keep the earliest index, as `np.argmax` does. -/
def argmaxAux : List ℚ → ℕ × ℚ → ℕ → ℕ × ℚ
  | [], best, _ => best
  | x :: xs, best, i =>
      if best.2 < x then argmaxAux xs (i, x) (i + 1)
      else argmaxAux xs best (i + 1)

/-- `np.argmax(output[0])`: the (index, value) of the first maximum, or
`none` on an empty distribution (where NumPy raises). -/
def argmaxD : List ℚ → Option (ℕ × ℚ)
  | [] => none
  | x :: xs => some (argmaxAux xs (0, x) 1)

/-- `predict_crop(input_data)` from `app.py`: guard the model and scaler
handles, scale, run inference, take `np.argmax` for the class and `np.max`
for the confidence, look the label up in `CROP_LABELS`; any failure along
the way is caught and returned as an `error` dictionary. -/
def predict_crop (env : InferEnv) (input_data : List ℚ) : PredictResult :=
  match env.crop_model with
  | none => .err "NoneType object has no attribute get_input_details"
  | some model =>
    match env.crop_scaler with
    | none => .err "NoneType object has no attribute transform"
    | some scaler =>
      match model (scaler input_data) with
      | .fail msg => .err msg
      | .ok output =>
        match argmaxD output with
        | none => .err "attempt to get argmax of an empty sequence"
        | some predicted_class =>
          match output.max? with
          | none => .err "zero-size array to reduction operation maximum"
          | some confidence =>
            match CROP_LABELS.get? predicted_class.1 with
            | none => .err "list index out of range"
            | some label => .ok label confidence predicted_class.1

/-- `predict_soil(input_data)` from `app.py`: same shape as `predict_crop`
but against the soil model, scaler and `SOIL_CLASSES`. -/
def predict_soil (env : InferEnv) (input_data : List ℚ) : PredictResult :=
  match env.soil_model with
  | none => .err "NoneType object has no attribute get_input_details"
  | some model =>
    match env.soil_scaler with
    | none => .err "NoneType object has no attribute transform"
    | some scaler =>
      match model (scaler input_data) with
      | .fail msg => .err msg
      | .ok output =>
        match argmaxD output with
        | none => .err "attempt to get argmax of an empty sequence"
        | some predicted_class =>
          match output.max? with
          | none => .err "zero-size array to reduction operation maximum"
          | some confidence =>
            match SOIL_CLASSES.get? predicted_class.1 with
            | none => .err "list index out of range"
            | some label => .ok label confidence predicted_class.1

/-- `field in data` for a parsed payload. -/
def hasField (data : Payload) (f : String) : Bool := (data.lookup f).isSome

/-- `data[f]` on a payload already validated to contain `f` (the default is
never reached on the guarded paths where this is used). -/
def fieldVal (data : Payload) (f : String) : ℚ := (data.lookup f).getD 0

/-- `required_fields` of `/predict/crop` (also `crop_fields` in the combined
endpoint). -/
def crop_required_fields : List String :=
  ["N", "P", "K", "temperature", "humidity", "ph", "rainfall"]

/-- `required_fields` of `/predict/soil` (also `soil_fields` in the combined
endpoint). -/
def soil_required_fields : List String := ["N", "P", "K", "pH"]

/-- `input_features` assembled by `/predict/crop` (and `crop_features` in the
combined endpoint): the seven values in the fixed order. -/
def crop_input_features (data : Payload) : List ℚ :=
  [fieldVal data "N", fieldVal data "P", fieldVal data "K",
   fieldVal data "temperature", fieldVal data "humidity",
   fieldVal data "ph", fieldVal data "rainfall"]

/-- `input_features` assembled by `/predict/soil` (and `soil_features` in the
combined endpoint). -/
def soil_input_features (data : Payload) : List ℚ :=
  [fieldVal data "N", fieldVal data "P", fieldVal data "K", fieldVal data "pH"]

/-- Response body of `/predict/crop`. -/
inductive CropBody where
  | fieldError (named : List String)
  | inferError (msg : String)
  | success (predicted_crop : String) (confidence : ℚ) (class_index : ℕ)
      (input_data : Payload)
deriving DecidableEq

/-- Response body of `/predict/soil`. -/
inductive SoilBody where
  | fieldError (named : List String)
  | inferError (msg : String)
  | success (predicted_fertility : String) (confidence : ℚ) (class_index : ℕ)
      (input_data : Payload)
deriving DecidableEq

/-- `POST /predict/crop` as (HTTP status, body): validate the seven fields,
build the feature vector, call `predict_crop`, and relay an `error` result
as a 500. -/
def predict_crop_endpoint (env : InferEnv) (data : Payload) : ℕ × CropBody :=
  if crop_required_fields.all (hasField data) then
    match predict_crop env (crop_input_features data) with
    | .err msg => (500, .inferError msg)
    | .ok label conf idx => (200, .success label conf idx data)
  else (400, .fieldError crop_required_fields)

/-- `POST /predict/soil` as (HTTP status, body). -/
def predict_soil_endpoint (env : InferEnv) (data : Payload) : ℕ × SoilBody :=
  if soil_required_fields.all (hasField data) then
    match predict_soil env (soil_input_features data) with
    | .err msg => (500, .inferError msg)
    | .ok label conf idx => (200, .success label conf idx data)
  else (400, .fieldError soil_required_fields)

/-- The pH-key reconciliation of the combined endpoint: copy `pH` to `ph`
when only `pH` is present, `ph` to `pH` when only `ph` is present, and leave
the payload alone otherwise (consing updates the association list, as dict
assignment updates the dict). -/
def reconcile_ph (data : Payload) : Payload :=
  match data.lookup "pH", data.lookup "ph" with
  | some v, none => ("ph", v) :: data
  | none, some v => ("pH", v) :: data
  | _, _ => data

/-- Response body of `/predict/combined`: either a missing-fields error or a
success envelope carrying both raw prediction dictionaries — note the code
never inspects them for an `error` key. -/
inductive CombinedBody where
  | fieldError (named : List String)
  | success (crop_prediction : PredictResult) (soil_prediction : PredictResult)
      (input_data : Payload)
deriving DecidableEq

/-- `POST /predict/combined` as (HTTP status, body): reconcile the pH keys,
validate crop then soil fields, run both predictions, and always answer 200
with `success: true` once validation passes. -/
def predict_combined_endpoint (env : InferEnv) (data : Payload) :
    ℕ × CombinedBody :=
  let d := reconcile_ph data
  if crop_required_fields.all (hasField d) then
    if soil_required_fields.all (hasField d) then
      (200, .success (predict_crop env (crop_input_features d))
        (predict_soil env (soil_input_features d)) d)
    else (400, .fieldError soil_required_fields)
  else (400, .fieldError crop_required_fields)

/-- The `prediction_data` dictionary built by `/sensor-data`. -/
structure PredictionData where
  N : ℚ
  P : ℚ
  K : ℚ
  pH : ℚ
  ph : ℚ
  temperature : ℚ
  humidity : ℚ
  rainfall : ℚ
deriving DecidableEq

/-- `ph_value` of `/sensor-data`: `data.get('soilPH', 6.5)`, divided by 10
when (and only when) it exceeds 100. -/
def sensor_ph_value (data : Payload) : ℚ :=
  let ph0 := (data.lookup "soilPH").getD (13 / 2)
  if ph0 > 100 then ph0 / 10 else ph0

/-- The `prediction_data` assembly of `/sensor-data`: `data.get` with the
fixed defaults, and the (possibly rescaled) pH under both keys. -/
def sensor_prediction_data (data : Payload) : PredictionData :=
  { N := (data.lookup "nitrogen").getD 0
    P := (data.lookup "phosphorus").getD 0
    K := (data.lookup "potassium").getD 0
    pH := sensor_ph_value data
    ph := sensor_ph_value data
    temperature := (data.lookup "temperature").getD 25
    humidity := (data.lookup "humidity").getD 60
    rainfall := (data.lookup "rainfall").getD 100 }

/-- Response body of `/sensor-data`: always a success envelope echoing the
raw sensor data, both raw prediction dictionaries (never inspected for an
`error` key) and the processed values. -/
inductive SensorBody where
  | success (sensor_data : Payload) (crop : PredictResult)
      (soil_fertility : PredictResult) (processed_values : PredictionData)
deriving DecidableEq

/-- `POST /sensor-data` as (HTTP status, body): apply defaults and the pH
heuristic, build both feature vectors from `prediction_data`, run both
predictions, and answer 200 with `success: true` unconditionally. -/
def process_sensor_data (env : InferEnv) (data : Payload) : ℕ × SensorBody :=
  let pd := sensor_prediction_data data
  (200, .success data
    (predict_crop env [pd.N, pd.P, pd.K, pd.temperature, pd.humidity,
      pd.ph, pd.rainfall])
    (predict_soil env [pd.N, pd.P, pd.K, pd.pH]) pd)

/-- The required fields of the crop endpoint that are absent from a payload
(in the order of `crop_required_fields`). -/
def missing_crop_fields (data : Payload) : List String :=
  crop_required_fields.filter (fun f => !(hasField data f))

/-- The environment after `load_models` failed: all four handles are `None`. -/
def envNone : InferEnv := ⟨none, none, none, none⟩

/-- A demo crop output distribution with 22 entries; its unique maximum 22
sits at index 21. -/
def crop_demo_dist : List ℚ :=
  [1, 2, 3, 4, 5, 6, 7, 8, 9, 10, 11, 12, 13, 14, 15, 16, 17, 18, 19, 20, 21, 22]

/-- A demo soil output distribution with 3 entries; its unique maximum 9 sits
at index 1. -/
def soil_demo_dist : List ℚ := [5, 9, 4]

/-- An environment with identity scalers and models that always answer with
the demo distributions. -/
def envDemo : InferEnv :=
  ⟨some (fun _ => InferOutcome.ok crop_demo_dist),
   some (fun _ => InferOutcome.ok soil_demo_dist),
   some (fun x => x), some (fun x => x)⟩

/-- A payload carrying every crop and soil field (both `ph` and `pH`). -/
def data_full : Payload :=
  [("N", 90), ("P", 42), ("K", 43), ("temperature", 21), ("humidity", 82),
   ("ph", 7), ("pH", 7), ("rainfall", 203)]

/-- A payload with every crop field except `N`. -/
def data_missing_N : Payload :=
  [("P", 42), ("K", 43), ("temperature", 21), ("humidity", 82), ("ph", 7),
   ("rainfall", 203)]

/-- A payload with every crop field, `ph` but no `pH`. -/
def data_ph_only : Payload :=
  [("N", 90), ("P", 42), ("K", 43), ("temperature", 21), ("humidity", 82),
   ("ph", 7), ("rainfall", 203)]

/-! ### Helper lemmas about payload lookup and pH reconciliation -/

/-- Looking up the key just inserted finds its value. -/
theorem lookup_cons_self (k : String) (v : ℚ) (d : Payload) :
    (((k, v) :: d) : Payload).lookup k = some v := by
  simp [List.lookup]

/-- Looking up a different key skips the inserted pair. -/
theorem lookup_cons_ne (k a : String) (v : ℚ) (d : Payload)
    (h : (a == k) = false) :
    (((k, v) :: d) : Payload).lookup a = d.lookup a := by
  simp [List.lookup, h]

/-- Field presence after inserting a pair. -/
theorem hasField_cons (k : String) (v : ℚ) (d : Payload) (f : String) :
    hasField ((k, v) :: d) f = (f == k || hasField d f) := by
  unfold hasField
  cases h : f == k <;> simp [List.lookup, h]

/-- When both `pH` and `ph` are present, the reconciler leaves the payload
unchanged. -/
theorem reconcile_ph_of_both {data : Payload}
    (h1 : (data.lookup "pH").isSome = true)
    (h2 : (data.lookup "ph").isSome = true) :
    reconcile_ph data = data := by
  obtain ⟨v1, hv1⟩ := Option.isSome_iff_exists.mp h1
  obtain ⟨v2, hv2⟩ := Option.isSome_iff_exists.mp h2
  unfold reconcile_ph
  rw [hv1, hv2]

/-! ### Helper lemmas about `argmaxAux`, `argmaxD` and `List.max?` -/

/-- Invariant of the argmax fold: if the running best `(bi, bv)` is an entry
of `l` and the remaining work `xs` is `l.drop i`, then the final best is an
entry of `l`, at least the running value, and an upper bound of `xs`. -/
theorem argmaxAux_spec (xs : List ℚ) : ∀ (l : List ℚ) (bi i : ℕ) (bv : ℚ),
    l.get? bi = some bv → l.drop i = xs →
    l.get? (argmaxAux xs (bi, bv) i).1 = some (argmaxAux xs (bi, bv) i).2 ∧
    bv ≤ (argmaxAux xs (bi, bv) i).2 ∧
    ∀ x ∈ xs, x ≤ (argmaxAux xs (bi, bv) i).2 := by
  induction xs with
  | nil =>
    intro l bi i bv hb _
    simpa [argmaxAux] using hb
  | cons x xs ih =>
    intro l bi i bv hb hd
    have hx : l.get? i = some x := by
      have h0 : (l.drop i).get? 0 = l.get? (i + 0) := by
        simp [List.getElem?_drop, List.get?_eq_getElem?]
      rw [hd] at h0
      simpa using h0.symm
    have hd' : l.drop (i + 1) = xs := by
      have h1 : l.drop (i + 1) = (l.drop i).drop 1 := by
        rw [List.drop_drop]
      rw [h1, hd]
      rfl
    by_cases hlt : bv < x
    · have step : argmaxAux (x :: xs) (bi, bv) i = argmaxAux xs (i, x) (i + 1) := by
        simp [argmaxAux, hlt]
      have spec := ih l i (i + 1) x hx hd'
      rw [step]
      refine ⟨spec.1, le_trans (le_of_lt hlt) spec.2.1, ?_⟩
      intro y hy
      rcases List.mem_cons.mp hy with rfl | hy'
      · exact spec.2.1
      · exact spec.2.2 y hy'
    · have step : argmaxAux (x :: xs) (bi, bv) i = argmaxAux xs (bi, bv) (i + 1) := by
        simp [argmaxAux, hlt]
      have spec := ih l bi (i + 1) bv hb hd'
      rw [step]
      refine ⟨spec.1, spec.2.1, ?_⟩
      intro y hy
      rcases List.mem_cons.mp hy with rfl | hy'
      · exact le_trans (not_lt.mp hlt) spec.2.1
      · exact spec.2.2 y hy'

/-- `argmaxD` returns an index holding its value, and that value is an upper
bound of the whole list. -/
theorem argmaxD_spec {l : List ℚ} {r : ℕ × ℚ} (h : argmaxD l = some r) :
    l.get? r.1 = some r.2 ∧ ∀ x ∈ l, x ≤ r.2 := by
  cases l with
  | nil => simp [argmaxD] at h
  | cons x xs =>
    have hr : argmaxAux xs (0, x) 1 = r := by
      simpa [argmaxD] using h
    have spec := argmaxAux_spec xs (x :: xs) 0 1 x rfl rfl
    rw [hr] at spec
    refine ⟨spec.1, ?_⟩
    intro y hy
    rcases List.mem_cons.mp hy with rfl | hy'
    · exact spec.2.1
    · exact spec.2.2 y hy'

/-- `List.max?` on rationals returns a member that bounds the list. -/
theorem max?_spec {l : List ℚ} {c : ℚ} (h : l.max? = some c) :
    c ∈ l ∧ ∀ x ∈ l, x ≤ c := by
  have anti : Std.Antisymm (fun a b : ℚ => a ≤ b) :=
    ⟨@fun a b h1 h2 => le_antisymm h1 h2⟩
  exact (List.max?_eq_some_iff (fun a => le_refl a) (fun a b => max_choice a b)
    (fun a b c => max_le_iff)).mp h

/-- When the crop model runs and `predict_crop` reports success, the reported
class index points at the reported confidence inside the output distribution,
and that confidence bounds the whole distribution. -/
theorem predict_crop_ok_spec (env : InferEnv) (input : List ℚ)
    (model : List ℚ → InferOutcome) (scaler : List ℚ → List ℚ) (dist : List ℚ)
    (l : String) (c : ℚ) (i : ℕ)
    (hm : env.crop_model = some model) (hs : env.crop_scaler = some scaler)
    (ho : model (scaler input) = InferOutcome.ok dist)
    (h : predict_crop env input = PredictResult.ok l c i) :
    dist.get? i = some c ∧ ∀ x ∈ dist, x ≤ c := by
  unfold predict_crop at h
  rw [hm, hs] at h
  dsimp only [] at h
  rw [ho] at h
  dsimp only [] at h
  cases ha : argmaxD dist with
  | none => rw [ha] at h; simp at h
  | some pc =>
    rw [ha] at h
    dsimp only [] at h
    cases hc : dist.max? with
    | none => rw [hc] at h; simp at h
    | some conf =>
      rw [hc] at h
      dsimp only [] at h
      cases hl : CROP_LABELS.get? pc.1 with
      | none => rw [hl] at h; simp at h
      | some label =>
        rw [hl] at h
        dsimp only [] at h
        have hlab : label = l ∧ conf = c ∧ pc.1 = i := by
          cases h; exact ⟨rfl, rfl, rfl⟩
        obtain ⟨-, rfl, rfl⟩ := hlab
        have ha' := argmaxD_spec ha
        have hc' := max?_spec hc
        have hmem : pc.2 ∈ dist := List.get?_mem ha'.1
        have heq : pc.2 = conf := le_antisymm (hc'.2 _ hmem) (ha'.2 _ hc'.1)
        exact ⟨heq ▸ ha'.1, fun x hx => heq ▸ ha'.2 x hx⟩

/-- Soil counterpart of `predict_crop_ok_spec`. -/
theorem predict_soil_ok_spec (env : InferEnv) (input : List ℚ)
    (model : List ℚ → InferOutcome) (scaler : List ℚ → List ℚ) (dist : List ℚ)
    (l : String) (c : ℚ) (i : ℕ)
    (hm : env.soil_model = some model) (hs : env.soil_scaler = some scaler)
    (ho : model (scaler input) = InferOutcome.ok dist)
    (h : predict_soil env input = PredictResult.ok l c i) :
    dist.get? i = some c ∧ ∀ x ∈ dist, x ≤ c := by
  unfold predict_soil at h
  rw [hm, hs] at h
  dsimp only [] at h
  rw [ho] at h
  dsimp only [] at h
  cases ha : argmaxD dist with
  | none => rw [ha] at h; simp at h
  | some pc =>
    rw [ha] at h
    dsimp only [] at h
    cases hc : dist.max? with
    | none => rw [hc] at h; simp at h
    | some conf =>
      rw [hc] at h
      dsimp only [] at h
      cases hl : SOIL_CLASSES.get? pc.1 with
      | none => rw [hl] at h; simp at h
      | some label =>
        rw [hl] at h
        dsimp only [] at h
        have hlab : label = l ∧ conf = c ∧ pc.1 = i := by
          cases h; exact ⟨rfl, rfl, rfl⟩
        obtain ⟨-, rfl, rfl⟩ := hlab
        have ha' := argmaxD_spec ha
        have hc' := max?_spec hc
        have hmem : pc.2 ∈ dist := List.get?_mem ha'.1
        have heq : pc.2 = conf := le_antisymm (hc'.2 _ hmem) (ha'.2 _ hc'.1)
        exact ⟨heq ▸ ha'.1, fun x hx => heq ▸ ha'.2 x hx⟩

/-- When the crop model runs and its distribution has exactly as many entries
as `CROP_LABELS`, `predict_crop` succeeds with an in-bounds class index. -/
theorem predict_crop_ok_of_dist (env : InferEnv) (input : List ℚ)
    (model : List ℚ → InferOutcome) (scaler : List ℚ → List ℚ) (dist : List ℚ)
    (hm : env.crop_model = some model) (hs : env.crop_scaler = some scaler)
    (ho : model (scaler input) = InferOutcome.ok dist)
    (hlen : dist.length = 22) :
    ∃ l c i, predict_crop env input = PredictResult.ok l c i ∧
      i < CROP_LABELS.length := by
  obtain ⟨x, xs, rfl⟩ : ∃ x xs, dist = x :: xs := by
    cases dist with
    | nil => simp at hlen
    | cons x xs => exact ⟨x, xs, rfl⟩
  have ha : argmaxD (x :: xs) = some (argmaxAux xs (0, x) 1) := rfl
  have hmax : (x :: xs).max? = some (xs.foldl max x) := rfl
  have spec := argmaxD_spec ha
  have hidx : (argmaxAux xs (0, x) 1).1 < (x :: xs).length :=
    (List.get?_eq_some.mp spec.1).1
  have hidx' : (argmaxAux xs (0, x) 1).1 < CROP_LABELS.length := by
    have h22 : CROP_LABELS.length = 22 := rfl
    omega
  obtain ⟨lab, hlab⟩ : ∃ lab, CROP_LABELS.get? (argmaxAux xs (0, x) 1).1 = some lab :=
    ⟨CROP_LABELS.get ⟨_, hidx'⟩, List.get?_eq_some.mpr ⟨hidx', rfl⟩⟩
  refine ⟨lab, xs.foldl max x, (argmaxAux xs (0, x) 1).1, ?_, hidx'⟩
  unfold predict_crop
  rw [hm, hs]
  dsimp only []
  rw [ho]
  dsimp only []
  rw [ha]
  dsimp only []
  rw [hmax]
  dsimp only []
  rw [hlab]

/-- Soil counterpart of `predict_crop_ok_of_dist`. -/
theorem predict_soil_ok_of_dist (env : InferEnv) (input : List ℚ)
    (model : List ℚ → InferOutcome) (scaler : List ℚ → List ℚ) (dist : List ℚ)
    (hm : env.soil_model = some model) (hs : env.soil_scaler = some scaler)
    (ho : model (scaler input) = InferOutcome.ok dist)
    (hlen : dist.length = 3) :
    ∃ l c i, predict_soil env input = PredictResult.ok l c i ∧
      i < SOIL_CLASSES.length := by
  obtain ⟨x, xs, rfl⟩ : ∃ x xs, dist = x :: xs := by
    cases dist with
    | nil => simp at hlen
    | cons x xs => exact ⟨x, xs, rfl⟩
  have ha : argmaxD (x :: xs) = some (argmaxAux xs (0, x) 1) := rfl
  have hmax : (x :: xs).max? = some (xs.foldl max x) := rfl
  have spec := argmaxD_spec ha
  have hidx : (argmaxAux xs (0, x) 1).1 < (x :: xs).length :=
    (List.get?_eq_some.mp spec.1).1
  have hidx' : (argmaxAux xs (0, x) 1).1 < SOIL_CLASSES.length := by
    have h3 : SOIL_CLASSES.length = 3 := rfl
    omega
  obtain ⟨lab, hlab⟩ : ∃ lab, SOIL_CLASSES.get? (argmaxAux xs (0, x) 1).1 = some lab :=
    ⟨SOIL_CLASSES.get ⟨_, hidx'⟩, List.get?_eq_some.mpr ⟨hidx', rfl⟩⟩
  refine ⟨lab, xs.foldl max x, (argmaxAux xs (0, x) 1).1, ?_, hidx'⟩
  unfold predict_soil
  rw [hm, hs]
  dsimp only []
  rw [ho]
  dsimp only []
  rw [ha]
  dsimp only []
  rw [hmax]
  dsimp only []
  rw [hlab]


/-! ### Claim theorems -/

/-- Claim C1: the spec (and the code's own comment) say a sensor payload with
`soilPH = 65` is normalized to pH `6.5`, while `soilPH = 6.5` stays `6.5`.
The code's guard is `> 100`, which never fires at 65: the value used for
prediction is 65, not 6.5, so the code contradicts its own documentation;
`soilPH = 6.5` does stay unchanged. -/
theorem C1_sensor_ph_at_65 :
    sensor_ph_value [("soilPH", 65)] = 65 ∧
    sensor_ph_value [("soilPH", 65)] ≠ 13 / 2 ∧
    sensor_ph_value [("soilPH", 13 / 2)] = 13 / 2 := by
  have h65 : sensor_ph_value [("soilPH", 65)] = 65 := by decide
  refine ⟨h65, ?_, ?_⟩
  · rw [h65]; norm_num
  · norm_num [sensor_ph_value, List.lookup]

/-- Claim C2 (as stated, refuted): the crop endpoint's 400 error should name
exactly the absent required fields. With only `N` missing, the absent list is
`["N"]`, but the error names the full seven-element `crop_required_fields`
list, which differs from `["N"]`. -/
theorem C2_counterexample :
    predict_crop_endpoint envNone data_missing_N
      = (400, CropBody.fieldError crop_required_fields) ∧
    missing_crop_fields data_missing_N = ["N"] ∧
    CropBody.fieldError crop_required_fields
      ≠ CropBody.fieldError (missing_crop_fields data_missing_N) := by
  refine ⟨by decide, by decide, by decide⟩

/-- Claim C2 (amended): whenever at least one of the seven required crop
fields is absent, the endpoint returns HTTP 400 with an error naming the
fixed full list of the seven required fields — the absent ones are among
those named, but present fields are named as well. -/
theorem C2_missing_fields_full_list (env : InferEnv) (data : Payload)
    (h : crop_required_fields.all (hasField data) = false) :
    predict_crop_endpoint env data
      = (400, CropBody.fieldError crop_required_fields) := by
  simp [predict_crop_endpoint, h]

/-- Witness for C2: the payload missing only `N` gets the 400 with the full
required-field list. -/
theorem C2_missing_fields_full_list_witness :
    predict_crop_endpoint envNone data_missing_N
      = (400, CropBody.fieldError crop_required_fields) :=
  C2_missing_fields_full_list envNone data_missing_N (by decide)

/-- Claim C6 (as stated, refuted): the claim says any soilPH of magnitude
above 100 is divided by 10. At `soilPH = -1005` the magnitude is above 100,
yet the code keeps `-1005` unchanged because its comparison is signed. -/
theorem C6_counterexample :
    |(-1005 : ℚ)| > 100 ∧
    sensor_ph_value [("soilPH", -1005)] = -1005 ∧
    sensor_ph_value [("soilPH", -1005)] ≠ -1005 / 10 := by
  have h : sensor_ph_value [("soilPH", -1005)] = -1005 := by decide
  refine ⟨by norm_num, h, ?_⟩
  rw [h]; norm_num

/-- Claim C6 (amended): for every sensor payload that supplies `soilPH`, the
value used for prediction is the supplied value divided by 10 exactly when
the supplied value itself exceeds 100 (a signed comparison, so negative
values are never rescaled); otherwise it is used as-is. -/
theorem C6_ph_rescale_signed (data : Payload) (v : ℚ)
    (h : data.lookup "soilPH" = some v) :
    sensor_ph_value data = if v > 100 then v / 10 else v := by
  simp [sensor_ph_value, h]

/-- Witness for C6: `soilPH = 150` is rescaled to 15. -/
theorem C6_ph_rescale_signed_witness :
    sensor_ph_value [("soilPH", 150)] = 15 := by
  have h := C6_ph_rescale_signed [("soilPH", 150)] 150 (by decide)
  rw [h]; norm_num

/-- Claim C7: each absent optional sensor field falls back to its fixed
default before the feature vectors are built (temperature 25.0, humidity
60.0, rainfall 100.0, nitrogen/phosphorus/potassium 0), and a present field
is used unchanged. -/
theorem C7_sensor_defaults (data : Payload) :
    ((data.lookup "temperature" = none →
        (sensor_prediction_data data).temperature = 25) ∧
      ∀ v, data.lookup "temperature" = some v →
        (sensor_prediction_data data).temperature = v) ∧
    ((data.lookup "humidity" = none →
        (sensor_prediction_data data).humidity = 60) ∧
      ∀ v, data.lookup "humidity" = some v →
        (sensor_prediction_data data).humidity = v) ∧
    ((data.lookup "rainfall" = none →
        (sensor_prediction_data data).rainfall = 100) ∧
      ∀ v, data.lookup "rainfall" = some v →
        (sensor_prediction_data data).rainfall = v) ∧
    ((data.lookup "nitrogen" = none → (sensor_prediction_data data).N = 0) ∧
      ∀ v, data.lookup "nitrogen" = some v →
        (sensor_prediction_data data).N = v) ∧
    ((data.lookup "phosphorus" = none → (sensor_prediction_data data).P = 0) ∧
      ∀ v, data.lookup "phosphorus" = some v →
        (sensor_prediction_data data).P = v) ∧
    ((data.lookup "potassium" = none → (sensor_prediction_data data).K = 0) ∧
      ∀ v, data.lookup "potassium" = some v →
        (sensor_prediction_data data).K = v) := by
  refine ⟨⟨fun h => ?_, fun v h => ?_⟩, ⟨fun h => ?_, fun v h => ?_⟩,
    ⟨fun h => ?_, fun v h => ?_⟩, ⟨fun h => ?_, fun v h => ?_⟩,
    ⟨fun h => ?_, fun v h => ?_⟩, ⟨fun h => ?_, fun v h => ?_⟩⟩ <;>
    simp [sensor_prediction_data, h]

/-- Witness for C7: the empty payload gets every default; a supplied
temperature is kept. -/
theorem C7_sensor_defaults_witness :
    (sensor_prediction_data []).temperature = 25 ∧
    (sensor_prediction_data [("temperature", 30)]).temperature = 30 ∧
    (sensor_prediction_data []).humidity = 60 ∧
    (sensor_prediction_data []).rainfall = 100 ∧
    (sensor_prediction_data []).N = 0 ∧
    (sensor_prediction_data []).P = 0 ∧
    (sensor_prediction_data []).K = 0 :=
  ⟨(C7_sensor_defaults []).1.1 rfl,
   (C7_sensor_defaults [("temperature", 30)]).1.2 30 rfl,
   (C7_sensor_defaults []).2.1.1 rfl,
   (C7_sensor_defaults []).2.2.1.1 rfl,
   (C7_sensor_defaults []).2.2.2.1.1 rfl,
   (C7_sensor_defaults []).2.2.2.2.1.1 rfl,
   (C7_sensor_defaults []).2.2.2.2.2.1 rfl⟩

/-- Claim C10: `predict_crop` and `predict_soil` are total at their
interface — every call returns either a success dictionary (label,
confidence, class index) or a dictionary whose only content is an error
message; no exception escapes to the caller. -/
theorem C10_predict_total (env : InferEnv) (input : List ℚ) :
    ((∃ l c i, predict_crop env input = PredictResult.ok l c i) ∨
      (∃ msg, predict_crop env input = PredictResult.err msg)) ∧
    ((∃ l c i, predict_soil env input = PredictResult.ok l c i) ∨
      (∃ msg, predict_soil env input = PredictResult.err msg)) := by
  constructor
  · cases h : predict_crop env input with
    | ok l c i => exact Or.inl ⟨l, c, i, rfl⟩
    | err m => exact Or.inr ⟨m, rfl⟩
  · cases h : predict_soil env input with
    | ok l c i => exact Or.inl ⟨l, c, i, rfl⟩
    | err m => exact Or.inr ⟨m, rfl⟩

/-- Claim C3 (as stated, refuted): inference failure should yield HTTP 500 on
every prediction endpoint. With no models loaded and a fully-populated
payload, `predict_crop` fails, yet the combined endpoint answers 200 with a
success envelope that merely embeds the error dictionaries. -/
theorem C3_counterexample :
    predict_crop envNone (crop_input_features data_full)
      = PredictResult.err "NoneType object has no attribute get_input_details" ∧
    predict_combined_endpoint envNone data_full
      = (200, CombinedBody.success
          (PredictResult.err "NoneType object has no attribute get_input_details")
          (PredictResult.err "NoneType object has no attribute get_input_details")
          data_full) := by
  refine ⟨by decide, by decide⟩

/-- Claim C3 (amended): when inference fails, the crop and soil endpoints
answer 500 carrying the failure message through, but the combined endpoint
answers 200 with `success: true` embedding the error dictionaries, and the
sensor endpoint always answers 200. -/
theorem C3_inference_failure_handling (env : InferEnv) (data : Payload)
    (msgc msgs : String)
    (hvc : crop_required_fields.all (hasField data) = true)
    (hvs : soil_required_fields.all (hasField data) = true)
    (hph : (data.lookup "ph").isSome = true)
    (hpH : (data.lookup "pH").isSome = true)
    (hec : predict_crop env (crop_input_features data) = PredictResult.err msgc)
    (hes : predict_soil env (soil_input_features data) = PredictResult.err msgs) :
    predict_crop_endpoint env data = (500, CropBody.inferError msgc) ∧
    predict_soil_endpoint env data = (500, SoilBody.inferError msgs) ∧
    predict_combined_endpoint env data
      = (200, CombinedBody.success (PredictResult.err msgc)
          (PredictResult.err msgs) data) ∧
    ∀ sdata : Payload, (process_sensor_data env sdata).1 = 200 := by
  have hrec : reconcile_ph data = data := reconcile_ph_of_both hpH hph
  refine ⟨?_, ?_, ?_, fun _ => rfl⟩
  · simp [predict_crop_endpoint, hvc, hec]
  · simp [predict_soil_endpoint, hvs, hes]
  · simp [predict_combined_endpoint, hrec, hvc, hvs, hec, hes]

/-- Witness for C3: with no models loaded, the crop and soil endpoints give
500 while the combined and sensor endpoints give 200. -/
theorem C3_inference_failure_handling_witness :
    predict_crop_endpoint envNone data_full
      = (500, CropBody.inferError
          "NoneType object has no attribute get_input_details") ∧
    predict_soil_endpoint envNone data_full
      = (500, SoilBody.inferError
          "NoneType object has no attribute get_input_details") ∧
    predict_combined_endpoint envNone data_full
      = (200, CombinedBody.success
          (PredictResult.err "NoneType object has no attribute get_input_details")
          (PredictResult.err "NoneType object has no attribute get_input_details")
          data_full) ∧
    (process_sensor_data envNone data_full).1 = 200 := by
  have h := C3_inference_failure_handling envNone data_full
    "NoneType object has no attribute get_input_details"
    "NoneType object has no attribute get_input_details"
    (by decide) (by decide) (by decide) (by decide) (by decide) (by decide)
  exact ⟨h.1, h.2.1, h.2.2.1, h.2.2.2 data_full⟩

/-- Claim C4: for every crop payload containing all seven required fields,
the feature vector handed to `predict_crop` is exactly the seven supplied
values in the order [N, P, K, temperature, humidity, ph, rainfall]. -/
theorem C4_crop_feature_vector (data : Payload) (vN vP vK vT vH vph vR : ℚ)
    (hN : data.lookup "N" = some vN) (hP : data.lookup "P" = some vP)
    (hK : data.lookup "K" = some vK)
    (hT : data.lookup "temperature" = some vT)
    (hH : data.lookup "humidity" = some vH)
    (hph : data.lookup "ph" = some vph)
    (hR : data.lookup "rainfall" = some vR) :
    crop_input_features data = [vN, vP, vK, vT, vH, vph, vR] ∧
    crop_required_fields.all (hasField data) = true ∧
    ∀ env, predict_crop_endpoint env data =
      match predict_crop env [vN, vP, vK, vT, vH, vph, vR] with
      | PredictResult.err msg => (500, CropBody.inferError msg)
      | PredictResult.ok label conf idx =>
          (200, CropBody.success label conf idx data) := by
  have hfeat : crop_input_features data = [vN, vP, vK, vT, vH, vph, vR] := by
    simp [crop_input_features, fieldVal, hN, hP, hK, hT, hH, hph, hR]
  have hval : crop_required_fields.all (hasField data) = true := by
    simp [crop_required_fields, hasField, hN, hP, hK, hT, hH, hph, hR]
  refine ⟨hfeat, hval, fun env => ?_⟩
  unfold predict_crop_endpoint
  rw [hval, hfeat]
  rfl

/-- Witness for C4: the full payload yields exactly its seven values, and the
unloaded-model endpoint result follows the handed-over vector. -/
theorem C4_crop_feature_vector_witness :
    crop_input_features data_full = [90, 42, 43, 21, 82, 7, 203] ∧
    predict_crop_endpoint envNone data_full
      = (500, CropBody.inferError
          "NoneType object has no attribute get_input_details") := by
  have h := C4_crop_feature_vector data_full 90 42 43 21 82 7 203
    (by decide) (by decide) (by decide) (by decide) (by decide) (by decide)
    (by decide)
  refine ⟨h.1, ?_⟩
  rw [h.2.2 envNone]
  rfl

/-- Claim C5: a combined request supplying exactly one of `ph`/`pH` together
with the other required fields passes validation, the missing key is filled
with the present one before validation, and the crop vector's ph entry (index
5) equals the soil vector's pH entry (index 3). -/
theorem C5_combined_ph_reconciliation (data : Payload) (v : ℚ)
    (hone : (data.lookup "ph" = some v ∧ data.lookup "pH" = none) ∨
            (data.lookup "pH" = some v ∧ data.lookup "ph" = none))
    (hN : hasField data "N" = true) (hP : hasField data "P" = true)
    (hK : hasField data "K" = true)
    (hT : hasField data "temperature" = true)
    (hH : hasField data "humidity" = true)
    (hR : hasField data "rainfall" = true) :
    (reconcile_ph data).lookup "ph" = some v ∧
    (reconcile_ph data).lookup "pH" = some v ∧
    crop_required_fields.all (hasField (reconcile_ph data)) = true ∧
    soil_required_fields.all (hasField (reconcile_ph data)) = true ∧
    (∀ env, predict_combined_endpoint env data =
      (200, CombinedBody.success
        (predict_crop env (crop_input_features (reconcile_ph data)))
        (predict_soil env (soil_input_features (reconcile_ph data)))
        (reconcile_ph data))) ∧
    (crop_input_features (reconcile_ph data)).get? 5 = some v ∧
    (soil_input_features (reconcile_ph data)).get? 3 = some v := by
  have hcore : ((reconcile_ph data).lookup "ph" = some v ∧
      (reconcile_ph data).lookup "pH" = some v) ∧
      crop_required_fields.all (hasField (reconcile_ph data)) = true ∧
      soil_required_fields.all (hasField (reconcile_ph data)) = true := by
    rcases hone with ⟨hph, hpH⟩ | ⟨hpH, hph⟩
    · have hd : reconcile_ph data = ("pH", v) :: data := by
        unfold reconcile_ph
        rw [hpH, hph]
      have hphF : hasField data "ph" = true := by
        unfold hasField
        rw [hph]
        rfl
      rw [hd]
      refine ⟨⟨?_, lookup_cons_self "pH" v data⟩, ?_, ?_⟩
      · rw [lookup_cons_ne "pH" "ph" v data (by decide)]
        exact hph
      · simp [crop_required_fields, hasField_cons, hN, hP, hK, hT, hH, hR, hphF]
      · simp [soil_required_fields, hasField_cons, hN, hP, hK]
    · have hd : reconcile_ph data = ("ph", v) :: data := by
        unfold reconcile_ph
        rw [hpH, hph]
      have hpHF : hasField data "pH" = true := by
        unfold hasField
        rw [hpH]
        rfl
      rw [hd]
      refine ⟨⟨lookup_cons_self "ph" v data, ?_⟩, ?_, ?_⟩
      · rw [lookup_cons_ne "ph" "pH" v data (by decide)]
        exact hpH
      · simp [crop_required_fields, hasField_cons, hN, hP, hK, hT, hH, hR]
      · simp [soil_required_fields, hasField_cons, hN, hP, hK, hpHF]
  obtain ⟨⟨hph2, hpH2⟩, hvc, hvs⟩ := hcore
  refine ⟨hph2, hpH2, hvc, hvs, ?_, ?_, ?_⟩
  · intro env
    simp [predict_combined_endpoint, hvc, hvs]
  · show some (fieldVal (reconcile_ph data) "ph") = some v
    unfold fieldVal
    rw [hph2]
    rfl
  · show some (fieldVal (reconcile_ph data) "pH") = some v
    unfold fieldVal
    rw [hpH2]
    rfl

/-- Witness for C5: the payload with `ph` only reconciles to carry both keys
with value 7 and the combined endpoint succeeds. -/
theorem C5_combined_ph_reconciliation_witness :
    (reconcile_ph data_ph_only).lookup "ph" = some 7 ∧
    (reconcile_ph data_ph_only).lookup "pH" = some 7 ∧
    predict_combined_endpoint envNone data_ph_only =
      (200, CombinedBody.success
        (predict_crop envNone (crop_input_features (reconcile_ph data_ph_only)))
        (predict_soil envNone (soil_input_features (reconcile_ph data_ph_only)))
        (reconcile_ph data_ph_only)) := by
  have h := C5_combined_ph_reconciliation data_ph_only 7
    (Or.inl ⟨by decide, by decide⟩) (by decide) (by decide) (by decide)
    (by decide) (by decide) (by decide)
  exact ⟨h.1, h.2.1, h.2.2.2.2.1 envNone⟩

/-- Claim C8: on every successful prediction, the reported class index is the
index of the maximum of the model's output distribution and the reported
confidence is that maximum itself (the entry at the index, an upper bound of
the distribution, taken without re-normalization). -/
theorem C8_confidence_is_max :
    (∀ (env : InferEnv) (input : List ℚ) (model : List ℚ → InferOutcome)
      (scaler : List ℚ → List ℚ) (dist : List ℚ) (l : String) (c : ℚ) (i : ℕ),
      env.crop_model = some model → env.crop_scaler = some scaler →
      model (scaler input) = InferOutcome.ok dist →
      predict_crop env input = PredictResult.ok l c i →
      dist.get? i = some c ∧ ∀ x ∈ dist, x ≤ c) ∧
    (∀ (env : InferEnv) (input : List ℚ) (model : List ℚ → InferOutcome)
      (scaler : List ℚ → List ℚ) (dist : List ℚ) (l : String) (c : ℚ) (i : ℕ),
      env.soil_model = some model → env.soil_scaler = some scaler →
      model (scaler input) = InferOutcome.ok dist →
      predict_soil env input = PredictResult.ok l c i →
      dist.get? i = some c ∧ ∀ x ∈ dist, x ≤ c) :=
  ⟨fun env input model scaler dist l c i hm hs ho h =>
      predict_crop_ok_spec env input model scaler dist l c i hm hs ho h,
   fun env input model scaler dist l c i hm hs ho h =>
      predict_soil_ok_spec env input model scaler dist l c i hm hs ho h⟩

/-- Witness for C8: on the demo distributions, the crop prediction reports
index 21 with confidence 22 and the soil prediction index 1 with
confidence 9, each the maximum of its distribution. -/
theorem C8_confidence_is_max_witness :
    (crop_demo_dist.get? 21 = some 22 ∧ ∀ x ∈ crop_demo_dist, x ≤ 22) ∧
    (soil_demo_dist.get? 1 = some 9 ∧ ∀ x ∈ soil_demo_dist, x ≤ 9) :=
  ⟨C8_confidence_is_max.1 envDemo [0, 0, 0, 0, 0, 0, 0]
      (fun _ => InferOutcome.ok crop_demo_dist) (fun x => x) crop_demo_dist
      "watermelon" 22 21 rfl rfl rfl
      (by set_option maxRecDepth 8192 in decide),
   C8_confidence_is_max.2 envDemo [0, 0, 0, 0]
      (fun _ => InferOutcome.ok soil_demo_dist) (fun x => x) soil_demo_dist
      "Mild" 9 1 rfl rfl rfl (by decide)⟩

/-- Claim C9: whenever the model's output distribution has as many entries as
the label table (22 for crop, 3 for soil), the prediction succeeds with a
class index in [0, N), so the label lookup is in bounds and the out-of-bounds
error branch is unreachable. -/
theorem C9_class_index_bounds :
    (∀ (env : InferEnv) (input : List ℚ) (model : List ℚ → InferOutcome)
      (scaler : List ℚ → List ℚ) (dist : List ℚ),
      env.crop_model = some model → env.crop_scaler = some scaler →
      model (scaler input) = InferOutcome.ok dist → dist.length = 22 →
      ∃ l c i, predict_crop env input = PredictResult.ok l c i ∧
        i < CROP_LABELS.length) ∧
    (∀ (env : InferEnv) (input : List ℚ) (model : List ℚ → InferOutcome)
      (scaler : List ℚ → List ℚ) (dist : List ℚ),
      env.soil_model = some model → env.soil_scaler = some scaler →
      model (scaler input) = InferOutcome.ok dist → dist.length = 3 →
      ∃ l c i, predict_soil env input = PredictResult.ok l c i ∧
        i < SOIL_CLASSES.length) :=
  ⟨fun env input model scaler dist hm hs ho hlen =>
      predict_crop_ok_of_dist env input model scaler dist hm hs ho hlen,
   fun env input model scaler dist hm hs ho hlen =>
      predict_soil_ok_of_dist env input model scaler dist hm hs ho hlen⟩

/-- Witness for C9: the demo environment yields successful predictions with
in-bounds class indices for both models. -/
theorem C9_class_index_bounds_witness :
    (∃ l c i, predict_crop envDemo [0, 0, 0, 0, 0, 0, 0]
        = PredictResult.ok l c i ∧ i < CROP_LABELS.length) ∧
    (∃ l c i, predict_soil envDemo [0, 0, 0, 0]
        = PredictResult.ok l c i ∧ i < SOIL_CLASSES.length) :=
  ⟨C9_class_index_bounds.1 envDemo [0, 0, 0, 0, 0, 0, 0]
      (fun _ => InferOutcome.ok crop_demo_dist) (fun x => x) crop_demo_dist
      rfl rfl rfl (by set_option maxRecDepth 8192 in decide),
   C9_class_index_bounds.2 envDemo [0, 0, 0, 0]
      (fun _ => InferOutcome.ok soil_demo_dist) (fun x => x) soil_demo_dist
      rfl rfl rfl (by decide)⟩

end ProjectAPI
